import Mathlib

/-!
Verification development for the chat request orchestration pipeline of the
vortex repository, embedded shallowly from src/app/(chat)/api/chat/route.ts.

The embedding follows the source filephrase by phrase: the JSON value model
stands in for JavaScript values flowing through JSON.parse and
JSON.stringify, the MCP client calls are modelled by outcome parameters
(connection refused, listing failed, or a concrete listing result), and the
stream of writeData calls is modelled as an explicit event list.
-/

namespace Vortex

/-- JSON values as produced by JSON.parse in the route handler. Numeric
payloads are restricted to integers: the claims under study never depend on
fractional numbers, and the parser below refuses a fraction or exponent
rather than mis-model floating point. -/
inductive JsonValue where
  | null
  | bool (b : Bool)
  | num (n : Int)
  | str (s : String)
  | arr (items : List JsonValue)
  | obj (fields : List (String × JsonValue))

/-- Opening brace character, kept as a named constant. -/
def lbraceChar : Char := Char.ofNat 123

/-- Closing brace character, kept as a named constant. -/
def rbraceChar : Char := Char.ofNat 125

/-- Lower-case hexadecimal digit, used by string escaping. -/
def hexDigitChar (n : Nat) : Char :=
  if n < 10 then Char.ofNat (48 + n) else Char.ofNat (87 + n)

/-- Escaping of one character inside a JSON string literal, as
JSON.stringify performs it. -/
def escapeJsonChar (c : Char) : String :=
  if c = Char.ofNat 34 then "\\\""
  else if c = Char.ofNat 92 then "\\\\"
  else if c = Char.ofNat 10 then "\\n"
  else if c = Char.ofNat 9 then "\\t"
  else if c = Char.ofNat 13 then "\\r"
  else if c = Char.ofNat 8 then "\\b"
  else if c = Char.ofNat 12 then "\\f"
  else if c.toNat < 32 then
    "\\u00" ++ String.mk [hexDigitChar (c.toNat / 16), hexDigitChar (c.toNat % 16)]
  else String.mk [c]

/-- A JSON string literal with quotes, as JSON.stringify renders one. -/
def escapeJsonString (s : String) : String :=
  "\"" ++ String.join (s.data.map escapeJsonChar) ++ "\""

mutual
/-- Compact serialization, the behaviour of JSON.stringify(v). -/
def stringifyCompact : JsonValue → String
  | .null => "null"
  | .bool true => "true"
  | .bool false => "false"
  | .num n => toString n
  | .str s => escapeJsonString s
  | .arr items => "[" ++ String.intercalate "," (stringifyCompactItems items) ++ "]"
  | .obj fields => "\x7b" ++ String.intercalate "," (stringifyCompactFields fields) ++ "\x7d"
/-- Compact serialization of array elements. -/
def stringifyCompactItems : List JsonValue → List String
  | [] => []
  | v :: rest => stringifyCompact v :: stringifyCompactItems rest
/-- Compact serialization of object members. -/
def stringifyCompactFields : List (String × JsonValue) → List String
  | [] => []
  | (k, v) :: rest =>
      (escapeJsonString k ++ ":" ++ stringifyCompact v) :: stringifyCompactFields rest
end

/-- Indentation of 2 spaces per nesting level, the gap JSON.stringify uses
when called with indent argument 2. -/
def jsonIndent (depth : Nat) : String := String.mk (List.replicate (2 * depth) ' ')

mutual
/-- Pretty serialization, the behaviour of JSON.stringify(v, null, 2) at the
given nesting depth. -/
def stringifyPretty (depth : Nat) : JsonValue → String
  | .null => "null"
  | .bool true => "true"
  | .bool false => "false"
  | .num n => toString n
  | .str s => escapeJsonString s
  | .arr [] => "[]"
  | .arr (v :: vs) =>
      "[\n" ++ String.intercalate ",\n" (stringifyPrettyItems (depth + 1) (v :: vs)) ++
        "\n" ++ jsonIndent depth ++ "]"
  | .obj [] => "\x7b\x7d"
  | .obj (f :: fs) =>
      "\x7b\n" ++ String.intercalate ",\n" (stringifyPrettyFields (depth + 1) (f :: fs)) ++
        "\n" ++ jsonIndent depth ++ "\x7d"
/-- Pretty serialization of array elements, one per line. -/
def stringifyPrettyItems (depth : Nat) : List JsonValue → List String
  | [] => []
  | v :: rest =>
      (jsonIndent depth ++ stringifyPretty depth v) :: stringifyPrettyItems depth rest
/-- Pretty serialization of object members, one per line. -/
def stringifyPrettyFields (depth : Nat) : List (String × JsonValue) → List String
  | [] => []
  | (k, v) :: rest =>
      (jsonIndent depth ++ escapeJsonString k ++ ": " ++ stringifyPretty depth v) ::
        stringifyPrettyFields depth rest
end

/-- Whitespace skipping for the JSON reader. -/
def skipWs : List Char → List Char
  | [] => []
  | c :: rest =>
      if c = ' ' ∨ c = Char.ofNat 10 ∨ c = Char.ofNat 9 ∨ c = Char.ofNat 13 then skipWs rest
      else c :: rest

/-- Leading digits of a character list, with the remainder. -/
def takeDigits : List Char → (List Char × List Char)
  | [] => ([], [])
  | c :: rest =>
      if c.isDigit then
        let (ds, r) := takeDigits rest
        (c :: ds, r)
      else ([], c :: rest)

/-- Numeric value of a digit list. -/
def digitsVal (ds : List Char) : Nat :=
  ds.foldl (fun acc c => acc * 10 + (c.toNat - 48)) 0

/-- Integer literal reader. A fraction or exponent is refused rather than
approximated, see the note on JsonValue. -/
def parseNumberChars (cs : List Char) : Option (Int × List Char) :=
  match cs with
  | '-' :: rest =>
      let (ds, r) := takeDigits rest
      if ds = [] then none
      else match r with
        | '.' :: _ => none
        | 'e' :: _ => none
        | 'E' :: _ => none
        | _ => some (-(Int.ofNat (digitsVal ds)), r)
  | _ =>
      let (ds, r) := takeDigits cs
      if ds = [] then none
      else match r with
        | '.' :: _ => none
        | 'e' :: _ => none
        | 'E' :: _ => none
        | _ => some (Int.ofNat (digitsVal ds), r)

/-- Value of one hexadecimal digit. -/
def hexVal (c : Char) : Option Nat :=
  if c.isDigit then some (c.toNat - 48)
  else if 97 ≤ c.toNat ∧ c.toNat ≤ 102 then some (c.toNat - 87)
  else if 65 ≤ c.toNat ∧ c.toNat ≤ 70 then some (c.toNat - 55)
  else none

/-- String literal body reader, called after the opening quote, driven by
fuel so every run is total. -/
def parseStringChars : Nat → List Char → List Char → Option (String × List Char)
  | 0, _, _ => none
  | _ + 1, _, [] => (none : Option (String × List Char))
  | fuel + 1, acc, c :: rest =>
      if c = Char.ofNat 34 then some (String.mk acc.reverse, rest)
      else if c = Char.ofNat 92 then
        match rest with
        | [] => none
        | e :: rest2 =>
            if e = Char.ofNat 34 then parseStringChars fuel (Char.ofNat 34 :: acc) rest2
            else if e = Char.ofNat 92 then parseStringChars fuel (Char.ofNat 92 :: acc) rest2
            else if e = '/' then parseStringChars fuel ('/' :: acc) rest2
            else if e = 'n' then parseStringChars fuel (Char.ofNat 10 :: acc) rest2
            else if e = 't' then parseStringChars fuel (Char.ofNat 9 :: acc) rest2
            else if e = 'r' then parseStringChars fuel (Char.ofNat 13 :: acc) rest2
            else if e = 'b' then parseStringChars fuel (Char.ofNat 8 :: acc) rest2
            else if e = 'f' then parseStringChars fuel (Char.ofNat 12 :: acc) rest2
            else if e = 'u' then
              match rest2 with
              | h1 :: h2 :: h3 :: h4 :: rest3 =>
                  match hexVal h1, hexVal h2, hexVal h3, hexVal h4 with
                  | some a, some b, some c2, some d =>
                      parseStringChars fuel
                        (Char.ofNat (((a * 16 + b) * 16 + c2) * 16 + d) :: acc) rest3
                  | _, _, _, _ => none
              | _ => none
            else none
      else parseStringChars fuel (c :: acc) rest

mutual
/-- JSON value reader, the behaviour of JSON.parse positioned at a value. -/
def parseJsonValue : Nat → List Char → Option (JsonValue × List Char)
  | 0, _ => none
  | fuel + 1, cs =>
      match skipWs cs with
      | [] => none
      | c :: rest =>
          if c = 'n' then
            match rest with
            | 'u' :: 'l' :: 'l' :: r => some (.null, r)
            | _ => none
          else if c = 't' then
            match rest with
            | 'r' :: 'u' :: 'e' :: r => some (.bool true, r)
            | _ => none
          else if c = 'f' then
            match rest with
            | 'a' :: 'l' :: 's' :: 'e' :: r => some (.bool false, r)
            | _ => none
          else if c = Char.ofNat 34 then
            match parseStringChars (rest.length + 1) [] rest with
            | some (s, r) => some (.str s, r)
            | none => none
          else if c = lbraceChar then
            match skipWs rest with
            | [] => none
            | c2 :: r2 =>
                if c2 = rbraceChar then some (.obj [], r2)
                else
                  match parseJsonMembers fuel (c2 :: r2) with
                  | some (fields, r3) => some (.obj fields, r3)
                  | none => none
          else if c = '[' then
            match skipWs rest with
            | ']' :: r2 => some (.arr [], r2)
            | other =>
                match parseJsonElements fuel other with
                | some (items, r3) => some (.arr items, r3)
                | none => none
          else
            match parseNumberChars (c :: rest) with
            | some (n, r) => some (.num n, r)
            | none => none
/-- Object member list reader, positioned at the first key, consuming the
closing brace. -/
def parseJsonMembers : Nat → List Char → Option (List (String × JsonValue) × List Char)
  | 0, _ => none
  | fuel + 1, cs =>
      match skipWs cs with
      | c :: rest =>
          if c = Char.ofNat 34 then
            match parseStringChars (rest.length + 1) [] rest with
            | some (k, r1) =>
                match skipWs r1 with
                | ':' :: r2 =>
                    match parseJsonValue fuel r2 with
                    | some (v, r3) =>
                        match skipWs r3 with
                        | ',' :: r4 =>
                            match parseJsonMembers fuel r4 with
                            | some (fields, r5) => some ((k, v) :: fields, r5)
                            | none => none
                        | c5 :: r4 =>
                            if c5 = rbraceChar then some ([(k, v)], r4) else none
                        | [] => none
                    | none => none
                | _ => none
            | none => none
          else none
      | [] => none
/-- Array element list reader, positioned at the first element, consuming
the closing bracket. -/
def parseJsonElements : Nat → List Char → Option (List JsonValue × List Char)
  | 0, _ => none
  | fuel + 1, cs =>
      match parseJsonValue fuel cs with
      | some (v, r1) =>
          match skipWs r1 with
          | ',' :: r2 =>
              match parseJsonElements fuel r2 with
              | some (vs, r3) => some (v :: vs, r3)
              | none => none
          | ']' :: r2 => some ([v], r2)
          | _ => none
      | none => none
end

/-- Full-string JSON reader, the behaviour of JSON.parse: the whole input
must be one value surrounded only by whitespace. -/
def parseJson (s : String) : Option JsonValue :=
  match parseJsonValue (s.length + 16) s.data with
  | some (v, rest) => if skipWs rest = [] then some v else none
  | none => none

/-- JavaScript truthiness of a parsed JSON value. -/
def jsTruthy : JsonValue → Bool
  | .null => false
  | .bool b => b
  | .num n => n != 0
  | .str s => s != ""
  | .arr _ => true
  | .obj _ => true

/-- Property lookup on a parsed JSON value; absent on non-objects, matching
property access returning undefined. -/
def jsField : JsonValue → String → Option JsonValue
  | .obj fields, k =>
      match fields.find? (fun f => f.1 = k) with
      | some f => some f.2
      | none => none
  | _, _ => none

/-- Truthiness of a property, the reading of a bare if (x.k) test. -/
def jsFieldTruthy (v : JsonValue) (k : String) : Bool :=
  match jsField v k with
  | some w => jsTruthy w
  | none => false

/-- Presence of a property, the reading of the in operator. -/
def jsHasProp (v : JsonValue) (k : String) : Bool :=
  match v with
  | .obj fields => fields.any (fun f => f.1 = k)
  | _ => false

/-- Values whose typeof is the string object: objects, arrays, and null. -/
def jsTypeofObject : JsonValue → Bool
  | .obj _ => true
  | .arr _ => true
  | .null => true
  | _ => false

mutual
/-- String coercion as performed by template literal interpolation. -/
def jsTemplateString : JsonValue → String
  | .null => "null"
  | .bool true => "true"
  | .bool false => "false"
  | .num n => toString n
  | .str s => s
  | .arr items => String.intercalate "," (jsTemplateStrings items)
  | .obj _ => "[object Object]"
/-- Array element coercion for a join: null renders as the empty string. -/
def jsTemplateStrings : List JsonValue → List String
  | [] => []
  | v :: rest =>
      (match v with
       | .null => ""
       | w => jsTemplateString w) :: jsTemplateStrings rest
end

/-- Top-level key names as Object.keys yields them for a parsed object. -/
def jsObjectKeys : JsonValue → List String
  | .obj fields => fields.map (fun f => f.1)
  | .arr items => (List.range items.length).map toString
  | _ => []

/-- Needle-at-head test on character lists. -/
def startsWithChars : List Char → List Char → Bool
  | _, [] => true
  | [], _ :: _ => false
  | c :: cs, n :: ns => (c == n) && startsWithChars cs ns

/-- First index at which the needle occurs, the behaviour of indexOf with
the running index threaded through. -/
def findSubIdx : List Char → List Char → Nat → Option Nat
  | [], needle, i => if startsWithChars [] needle then some i else none
  | c :: t, needle, i =>
      if startsWithChars (c :: t) needle then some i
      else findSubIdx t needle (i + 1)

/-- Boolean substring containment, used to state inclusion and exclusion of
text in a narrative. -/
def containsSeq : List Char → List Char → Bool
  | [], needle => needle.isEmpty
  | c :: rest, needle => startsWithChars (c :: rest) needle || containsSeq rest needle

/-- Substring containment on strings. -/
def strContainsSub (hay needle : String) : Bool := containsSeq hay.data needle.data

/-- Suffix of a string from a character position, the behaviour of
substring with one argument. -/
def substringFrom (n : Nat) (s : String) : String := String.mk (s.data.drop n)

/-- One content item of an MCP tool call result: a type tag and, for text
items, the text payload. -/
structure McpToolResultContentItem where
  type : String
  text : Option String

/-- Result of mcpClient.callTool as the route handler reads it: an optional
content list, the isError flag, and an optional error value. -/
structure McpCallToolResult where
  content : Option (List McpToolResultContentItem)
  isError : Bool
  error : Option JsonValue

/-- Marker text preceding an embedded JSON payload; the source computes the
substring start from this head, the brace completing the search needle. -/
def jsonMarkerHead : String := " succeeded. Response:\n"

/-- Search needle for the embedded JSON payload, jsonPrefix in the source. -/
def jsonMarker : String := jsonMarkerHead ++ "\x7b"

/-- Default narrative before any content processing. -/
def genericSuccessMsg : String := "Tool executed successfully."

/-- Narrative when nothing meaningful was processed and no error reported. -/
def noContentMsg : String :=
  "Tool executed but returned no discernible content or specific error."

/-- Narrative for a non-text or empty content item. -/
def nonTextContentMsg : String := "Received non-text or empty content from the tool."

/-- Head of the narrative carrying a small embedded JSON payload. -/
def smallJsonNarrativeHead : String :=
  "The tool call was successful and returned the following JSON data. Analyze this data to display it: "

/-- Head of the narrative summarizing a large embedded JSON payload. -/
def largeJsonNarrativeHead : String :=
  "The tool call was successful and returned a large JSON data object with the following top-level keys: "

/-- Tail of the narrative summarizing a large embedded JSON payload. -/
def largeJsonNarrativeTail : String :=
  ". You may need to request specific parts of the data if the summary is insufficient."

/-- Head of the narrative for an error field inside the embedded payload. -/
def contentErrorHead : String := "The tool reported an error in its response: "

/-- Head of the narrative for a top-level call error. -/
def toolFailedHead : String := "Tool execution failed: "

/-- Head of the narrative for an unparseable embedded payload. -/
def parseFailHead : String :=
  "Received a response that appeared to be JSON, but it couldn\x27t be parsed. Raw text started with: "

/-- Engine-specific JSON parse error message, abstracted as a constant: the
exact wording is produced by the JavaScript runtime, not by the source. -/
def jsParseErrorMessage : String := "Unexpected token in JSON"

/-- Size threshold above which an embedded payload is summarized by keys. -/
def maxJsonLengthForPrompt : Nat := 3000

/-- Narrative derived from a successfully parsed embedded JSON payload:
an error field wins, otherwise the payload is included pretty-printed when
small and summarized by its top-level keys when large. -/
def jsonNarrativeFor (jsonData : JsonValue) : String :=
  if jsFieldTruthy jsonData "error" = true then
    let ev := (jsField jsonData "error").getD .null
    match jsField ev "message" with
    | some m =>
        if jsTruthy m = true then contentErrorHead ++ jsTemplateString m ++ "."
        else contentErrorHead ++ stringifyCompact ev ++ "."
    | none => contentErrorHead ++ stringifyCompact ev ++ "."
  else
    let pretty := stringifyPretty 0 jsonData
    if pretty.length > maxJsonLengthForPrompt then
      largeJsonNarrativeHead ++ String.intercalate ", " (jsObjectKeys jsonData) ++
        largeJsonNarrativeTail
    else
      smallJsonNarrativeHead ++ pretty

/-- Truthiness of the text field of a content item. -/
def itemTextTruthy (item : McpToolResultContentItem) : Bool :=
  match item.text with
  | some s => s != ""
  | none => false

/-- Scan over the content items, carrying the narrative and the
meaningfulDataProcessed flag; every branch of the source loop either stops
after the current item or continues with the state unchanged. -/
def processContentItems : List McpToolResultContentItem → String → Bool → String × Bool
  | [], res, mdp => (res, mdp)
  | item :: rest, res, mdp =>
      let step : String × Bool :=
        if item.type = "text" ∧ itemTextTruthy item = true then
          let t := item.text.getD ""
          match findSubIdx t.data jsonMarker.data 0 with
          | some idx =>
              match parseJson (substringFrom (idx + jsonMarkerHead.length) t) with
              | some jsonData => (jsonNarrativeFor jsonData, true)
              | none =>
                  if mdp = false then
                    (parseFailHead ++ String.mk (t.data.take 200) ++ "... Error: " ++
                      jsParseErrorMessage, true)
                  else (res, mdp)
          | none =>
              if mdp = false then (t, true) else (res, mdp)
        else
          if mdp = false then (nonTextContentMsg, true) else (res, mdp)
      if step.2 then step else processContentItems rest step.1 step.2

/-- Narrative for a top-level call error: the message property when the
error is an object carrying one, otherwise its compact serialization, with
a falsy error replaced by the Unknown error literal. -/
def topLevelErrorNarrative (e : Option JsonValue) : String :=
  match e with
  | some v =>
      if jsTruthy v = true ∧ jsTypeofObject v = true ∧ jsHasProp v "message" = true then
        toolFailedHead ++ jsTemplateString ((jsField v "message").getD .null)
      else
        toolFailedHead ++ stringifyCompact (if jsTruthy v = true then v else .str "Unknown error")
  | none => toolFailedHead ++ stringifyCompact (.str "Unknown error")

/-- Normalization of a tool call result into the narrative returned to the
model, translated branch for branch from the execute callback: content
scan first, then the top-level error override, then the no-content
fallback. -/
def normalizeToolResult (r : McpCallToolResult) : String :=
  let init : String × Bool := (genericSuccessMsg, false)
  let afterContent : String × Bool :=
    match r.content with
    | some items => if 0 < items.length then processContentItems items genericSuccessMsg false else init
    | none => init
  let afterError : String × Bool :=
    if r.isError = true then (topLevelErrorNarrative r.error, true) else afterContent
  if afterError.2 = false then noContentMsg else afterError.1

/-- Declared type of a JSON schema property: absent, a single type name, or
a union written as an array of type names. -/
inductive JsonTypeField where
  | missing
  | single (s : String)
  | multi (l : List String)
deriving DecidableEq, Repr

/-- One property of an MCP tool input schema, McpJsonSchemaProperty in the
source: declared type, description, item schema for arrays, and enum
values. An inductive rather than a structure because the items field nests
the type inside itself. -/
inductive McpJsonSchemaProperty where
  | mk (type : JsonTypeField) (description : Option String)
       (items : Option McpJsonSchemaProperty) (enum : Option (List String))

/-- Declared type of a schema property. -/
def McpJsonSchemaProperty.type : McpJsonSchemaProperty → JsonTypeField
  | .mk t _ _ _ => t

/-- Description of a schema property. -/
def McpJsonSchemaProperty.description : McpJsonSchemaProperty → Option String
  | .mk _ d _ _ => d

/-- Item schema of an array property. -/
def McpJsonSchemaProperty.items : McpJsonSchemaProperty → Option McpJsonSchemaProperty
  | .mk _ _ i _ => i

/-- Enum values of a schema property. -/
def McpJsonSchemaProperty.enum : McpJsonSchemaProperty → Option (List String)
  | .mk _ _ _ e => e

/-- Input schema of an MCP tool, McpJsonSchema in the source. Properties
keep their listing order. -/
structure McpJsonSchema where
  type : Option String
  properties : Option (List (String × McpJsonSchemaProperty))
  required : Option (List String)

/-- One tool as listed by the MCP server, McpTool in the source. -/
structure McpTool where
  name : String
  description : Option String
  inputSchema : Option McpJsonSchema

/-- Parameter kinds producible by the schema translation, one constructor
per zod combinator the source reaches. -/
inductive ZodKind where
  | zAny
  | zString
  | zNumber
  | zBoolean
  | zEnum (values : List String)
  | zArray (item : ZodKind)
  | zOptional (inner : ZodKind)
deriving DecidableEq, Repr

/-- Presence of a non-empty enum list on a property; the explicit length
test mirrors the source, where an empty array is truthy. -/
def enumNonempty (p : McpJsonSchemaProperty) : Bool :=
  match p.enum with
  | some l => !l.isEmpty
  | none => false

/-- Element kind of an array property, the inner branch of the translation:
a string enum wins, then the primitive item types, then any. -/
def translateArrayItemType (items : Option McpJsonSchemaProperty) : ZodKind :=
  match items with
  | none => .zAny
  | some it =>
      if it.type = .single "string" ∧ enumNonempty it = true then .zEnum (it.enum.getD [])
      else if it.type = .single "string" then .zString
      else if it.type = .single "number" ∨ it.type = .single "integer" then .zNumber
      else if it.type = .single "boolean" then .zBoolean
      else .zAny

/-- Kind of one schema property, the outer if chain of the translation. -/
def translatePropType (p : McpJsonSchemaProperty) : ZodKind :=
  if p.type = .single "array" then .zArray (translateArrayItemType p.items)
  else if p.type = .single "string" ∧ enumNonempty p = true then .zEnum (p.enum.getD [])
  else if p.type = .single "number" ∨ p.type = .single "integer" then .zNumber
  else if p.type = .single "boolean" then .zBoolean
  else .zString

/-- Kind of one named property with the optional wrapper applied when the
name is absent from the required list. -/
def translateProperty (required : List String) (name : String)
    (p : McpJsonSchemaProperty) : ZodKind :=
  if required.contains name then translatePropType p
  else .zOptional (translatePropType p)

/-- Parameter contract of a tool from its input schema: translated
per property when the schema is an object carrying properties, empty
otherwise. -/
def buildParamShape (schema : Option McpJsonSchema) : List (String × ZodKind) :=
  match schema with
  | some s =>
      if s.type = some "object" then
        match s.properties with
        | some props =>
            props.map (fun np => (np.1, translateProperty (s.required.getD []) np.1 np.2))
        | none => []
      else []
  | none => []

/-- One dynamic tool definition as the loader records it. -/
structure DynamicToolDefinition where
  operationId : String
  description : String
  parametersSchema : List (String × ZodKind)
  mcpServerUrl : String
  mcpToolName : String
deriving DecidableEq, Repr

/-- Key assignment on an object modelled as an association list: an
existing key is overwritten in place, a new key is appended. -/
def upsert : List (String × DynamicToolDefinition) → String → DynamicToolDefinition →
    List (String × DynamicToolDefinition)
  | [], k, v => [(k, v)]
  | (k0, v0) :: rest, k, v =>
      if k0 = k then (k, v) :: rest else (k0, v0) :: upsert rest k v

/-- Definition record for one listed tool: name as operation id, a default
description when the listed one is absent or empty, and the translated
parameter contract. -/
def definitionForTool (url : String) (t : McpTool) : DynamicToolDefinition :=
  { operationId := t.name
    description :=
      match t.description with
      | some d => if d = "" then "No description provided by MCP server." else d
      | none => "No description provided by MCP server."
    parametersSchema := buildParamShape t.inputSchema
    mcpServerUrl := url
    mcpToolName := t.name }

/-- Accumulation of the definitions object over the listed tools. -/
def buildDefinitions (url : String) (tools : List McpTool) :
    List (String × DynamicToolDefinition) :=
  tools.foldl (fun acc t => upsert acc t.name (definitionForTool url t)) []

/-- Outcome of the interaction with the MCP server inside the loader: the
URL constructor may throw, the connect call may throw, the listTools call
may throw, or a listing is returned. -/
inductive McpLoadOutcome where
  | invalidUrl
  | connectError (msg : String)
  | listError (msg : String)
  | ok (tools : List McpTool)

/-- Body of the try block of loadToolsViaMcpSdk: any thrown error surfaces
here as the error case, a listing is translated into definitions. -/
def loadToolsAttempt (url : String) (o : McpLoadOutcome) :
    Except String (List (String × DynamicToolDefinition)) :=
  match o with
  | .invalidUrl => .error "Invalid URL"
  | .connectError m => .error m
  | .listError m => .error m
  | .ok tools => .ok (buildDefinitions url tools)

/-- Capability loader: the catch clause swallows every error from the try
body, logs, and lets the empty definitions object be returned. -/
def loadToolsViaMcpSdk (url : String) (o : McpLoadOutcome) :
    List (String × DynamicToolDefinition) :=
  match loadToolsAttempt url o with
  | .ok defs => defs
  | .error _ => []

/-- One persisted chat row. -/
structure Chat where
  id : String
  userId : String
  visibility : String
  title : String
deriving DecidableEq, Repr

/-- One persisted message row; parts and attachments are not inspected by
any modelled branch and are omitted. -/
structure DbMessage where
  id : String
  chatId : String
  role : String
  createdAt : Int
deriving DecidableEq, Repr

/-- An authenticated session, reduced to the fields the handlers read. -/
structure Session where
  userId : String
  userType : String
deriving DecidableEq, Repr

/-- One event written onto the output data stream. -/
inductive StreamEvent where
  | toolResult (toolName : String) (result : String)
  | errorEvent (content : String)
  | appendMessage (message : DbMessage)
deriving DecidableEq, Repr

/-- Outcome of the interaction with the MCP server inside a dynamic tool
execute call: the URL constructor may throw before the client exists, the
connect or callTool call may throw afterwards, or a call result arrives. -/
inductive ExecOutcome where
  | invalidUrl (msg : String)
  | connectError (msg : String)
  | callError (msg : String)
  | ok (r : McpCallToolResult)

/-- Value returned from a dynamic tool execute call: the narrative string
on the normal path, an object with an error field from the catch clause. -/
inductive ToolReturn where
  | text (s : String)
  | errorObj (message : String)

/-- Dynamic tool invocation adapter: connect, call, normalize, write the
stream event, and close in the finally clause. The returned flag records
whether the finally clause closed a client, which it does whenever the
client was constructed, that is on every outcome past the URL parse. -/
def executeDynamicTool (opId : String) (o : ExecOutcome) :
    ToolReturn × List StreamEvent × Bool :=
  match o with
  | .invalidUrl m =>
      (.errorObj ("Error executing tool " ++ opId ++ ": " ++ m),
       [.errorEvent ("Tool " ++ opId ++ " execution error: " ++ m)], false)
  | .connectError m =>
      (.errorObj ("Error executing tool " ++ opId ++ ": " ++ m),
       [.errorEvent ("Tool " ++ opId ++ " execution error: " ++ m)], true)
  | .callError m =>
      (.errorObj ("Error executing tool " ++ opId ++ ": " ++ m),
       [.errorEvent ("Tool " ++ opId ++ " execution error: " ++ m)], true)
  | .ok r =>
      let narrative := normalizeToolResult r
      (.text narrative, [.toolResult opId narrative], true)

/-- One side effect of the POST handler, in program order. -/
inductive Effect where
  | savedChat (chatId userId title visibility : String)
  | savedUserMessage (chatId messageId : String)
  | attemptedToolLoad (url : String)
  | createdStream (chatId : String)
  | emittedModelEvent
  | savedAssistantMessage (chatId : String)
deriving DecidableEq, Repr

/-- Parsed POST request body, the fields the handler destructures. -/
structure PostRequest where
  id : String
  messageId : String
  selectedChatModel : String
  selectedVisibilityType : String
  mcpServerUrl : Option String
deriving DecidableEq, Repr

/-- External collaborators of the POST handler: the session, the rate
limit data, the chat lookup, the generated title, the MCP server
behaviour, and whether the finished generation contains an assistant
message. -/
structure PostEnv where
  session : Option Session
  messageCount : Nat
  maxMessagesPerDay : Nat
  existingChat : Option Chat
  generatedTitle : String
  mcpOutcome : McpLoadOutcome
  assistantFound : Bool

/-- Response of the POST handler: a structured error or a stream whose
generation loop was configured with the recorded active tool names. -/
inductive PostResponse where
  | errorResp (code : String)
  | streamResp (activeTools : List String)
deriving DecidableEq, Repr

/-- Static tool names always passed to experimental_activeTools outside
reasoning mode. -/
def postStaticActiveTools : List String :=
  ["getWeather", "createDocument", "updateDocument", "requestSuggestions"]

/-- Reasoning-only model selector. -/
def reasoningModelName : String := "chat-model-reasoning"

/-- POST handler, translated step for step: auth, rate limit, chat lookup
with ownership check and creation, user message save, dynamic tool load,
stream id creation, generation with the active tool selection, and the
assistant message save in onFinish. Effects are recorded in program
order. -/
def POSTHandler (req : PostRequest) (env : PostEnv) : PostResponse × List Effect :=
  match env.session with
  | none => (.errorResp "unauthorized:chat", [])
  | some sess =>
      if env.messageCount > env.maxMessagesPerDay then (.errorResp "rate_limit:chat", [])
      else
        let chatStep : Option (List Effect) :=
          match env.existingChat with
          | none => some [Effect.savedChat req.id sess.userId env.generatedTitle
                            req.selectedVisibilityType]
          | some c => if c.userId ≠ sess.userId then none else some []
        match chatStep with
        | none => (.errorResp "forbidden:chat", [])
        | some eff0 =>
            let eff1 := eff0 ++ [Effect.savedUserMessage req.id req.messageId]
            let loadStep : List (String × DynamicToolDefinition) × List Effect :=
              match req.mcpServerUrl with
              | some u =>
                  if u ≠ "" then
                    (loadToolsViaMcpSdk u env.mcpOutcome,
                     eff1 ++ [Effect.attemptedToolLoad u])
                  else ([], eff1)
              | none => ([], eff1)
            let toolDefinitions := loadStep.1
            let eff2 := loadStep.2 ++ [Effect.createdStream req.id]
            let activeTools : List String :=
              if req.selectedChatModel = reasoningModelName then []
              else postStaticActiveTools ++ toolDefinitions.map (fun d => d.1)
            let eff3 := eff2 ++ [Effect.emittedModelEvent]
            let eff4 :=
              if env.assistantFound then eff3 ++ [Effect.savedAssistantMessage req.id]
              else eff3
            (.streamResp activeTools, eff4)

/-- External collaborators of the GET resume handler. -/
structure GetEnv where
  streamContextAvailable : Bool
  chatIdParam : Option String
  session : Option Session
  chatLookup : Except Unit (Option Chat)
  streamIds : List String
  liveStreamActive : Bool
  messages : List DbMessage
  resumeRequestedAt : Int

/-- Response of the GET resume handler. -/
inductive GetResponse where
  | noContent
  | errorResp (code : String)
  | emptyStream
  | liveStream
  | restoredStream (events : List StreamEvent)
deriving DecidableEq, Repr

/-- GET resume handler, translated step for step: the stream context gate,
parameter and session checks, chat lookup with visibility gating, stream
id lookup, and the freshness-bounded restoration of the last assistant
message when the live stream has concluded. -/
def GETHandler (env : GetEnv) : GetResponse :=
  if env.streamContextAvailable = false then .noContent
  else
    match env.chatIdParam with
    | none => .errorResp "bad_request:api"
    | some chatId =>
        if chatId = "" then .errorResp "bad_request:api"
        else
          match env.session with
          | none => .errorResp "unauthorized:chat"
          | some sess =>
              match env.chatLookup with
              | .error _ => .errorResp "not_found:chat"
              | .ok none => .errorResp "not_found:chat"
              | .ok (some chat) =>
                  if chat.visibility = "private" ∧ chat.userId ≠ sess.userId then
                    .errorResp "forbidden:chat"
                  else if env.streamIds.length = 0 then .errorResp "not_found:stream"
                  else
                    match env.streamIds.getLast? with
                    | none => .errorResp "not_found:stream"
                    | some recentStreamId =>
                        if recentStreamId = "" then .errorResp "not_found:stream"
                        else if env.liveStreamActive then .liveStream
                        else
                          match env.messages.getLast? with
                          | none => .emptyStream
                          | some mostRecent =>
                              if mostRecent.role ≠ "assistant" then .emptyStream
                              else if env.resumeRequestedAt - mostRecent.createdAt > 15 then
                                .emptyStream
                              else .restoredStream [.appendMessage mostRecent]

/-- External collaborators of the DELETE handler. -/
structure DeleteEnv where
  idParam : Option String
  session : Option Session
  chatLookup : Option Chat

/-- Response of the DELETE handler on a path that completes. -/
inductive DeleteResponse where
  | errorResp (code : String)
  | deletedChat (id : String)
deriving DecidableEq, Repr

/-- DELETE handler, translated step for step. The handler reads userId off
the looked-up chat without a null check and without a surrounding try, so
an absent chat surfaces as a thrown TypeError, modelled by the error case
of Except. -/
def DELETEHandler (env : DeleteEnv) : Except String DeleteResponse :=
  match env.idParam with
  | none => .ok (.errorResp "bad_request:api")
  | some i =>
      if i = "" then .ok (.errorResp "bad_request:api")
      else
        match env.session with
        | none => .ok (.errorResp "unauthorized:chat")
        | some sess =>
            match env.chatLookup with
            | none => .error "TypeError: cannot read userId of an undefined chat"
            | some chat =>
                if chat.userId ≠ sess.userId then .ok (.errorResp "forbidden:chat")
                else .ok (.deletedChat chat.id)

/-- Strict ordering of two effects inside a trace. -/
def occursBefore (a b : Effect) (l : List Effect) : Prop :=
  ∃ i j, i < j ∧ l.get? i = some a ∧ l.get? j = some b

/-- Fixture for C2: a reasoning-only request carrying a provider URL. -/
def c2req : PostRequest :=
  ⟨"chat-1", "msg-1", "chat-model-reasoning", "private", some "http://mcp.example/sse"⟩

/-- Fixture for C2: one advertised provider operation. -/
def c2tool : McpTool := ⟨"lookup", some "Look up a city", none⟩

/-- Fixture for C2: a passing environment whose provider lists one tool. -/
def c2env : PostEnv :=
  ⟨some ⟨"user-1", "regular"⟩, 0, 100, none, "Title", .ok [c2tool], true⟩

/-- Fixture for C3: a call result with content and a top-level error. -/
def c3fixture : McpCallToolResult :=
  ⟨some [⟨"text", some "partial output"⟩], true, some (.obj [("message", .str "boom")])⟩

/-- Fixture for C4: an assistant message created 5 seconds before resume. -/
def c4msg : DbMessage := ⟨"m9", "chat-9", "assistant", 1000⟩

/-- Fixture for C4: a resume environment whose live stream has closed. -/
def c4env : GetEnv :=
  ⟨true, some "chat-9", some ⟨"user-9", "regular"⟩,
   .ok (some ⟨"chat-9", "user-9", "private", "T"⟩), ["s1"], false, [c4msg], 1005⟩

/-- Fixture for C5: item schema declaring a string enum. -/
def c5items : McpJsonSchemaProperty := .mk (.single "string") none none (some ["a", "b"])

/-- Fixture for C5: an array property whose items carry the enum. -/
def c5prop : McpJsonSchemaProperty := .mk (.single "array") none (some c5items) none

/-- Fixture for C7 counterexample: a non-text first content item. -/
def c7firstItem : McpToolResultContentItem := ⟨"image", none⟩

/-- Fixture for C7 counterexample: text of the second content item,
carrying the embedded JSON marker and a small payload. -/
def c7secondText : String := "Call get_data succeeded. Response:\n\x7b\"a\":1\x7d"

/-- Fixture for C7 counterexample: the textual second content item. -/
def c7secondItem : McpToolResultContentItem := ⟨"text", some c7secondText⟩

/-- Fixture for C7 counterexample: a call result whose first textual item
is preceded by a non-text item. -/
def c7result : McpCallToolResult := ⟨some [c7firstItem, c7secondItem], false, none⟩

/-- Fixture for C7: the parsed embedded payload. -/
def c7payload : JsonValue := .obj [("a", .num 1)]

/-- Fixture for C7 witness: a call result whose first item is textual and
carries the marker. -/
def c7witnessItem : McpToolResultContentItem := ⟨"text", some c7secondText⟩

/-- Fixture for C7 witness: the corresponding call result. -/
def c7witnessResult : McpCallToolResult := ⟨some [c7witnessItem], false, none⟩

/-- Fixture for C8: a plain request on a fresh chat without a provider. -/
def c8req : PostRequest := ⟨"chat-2", "msg-2", "chat-model", "private", none⟩

/-- Fixture for C8: a passing environment for a fresh chat. -/
def c8env : PostEnv := ⟨some ⟨"user-2", "regular"⟩, 3, 50, none, "Sum", .ok [], true⟩

/-- Fixture for C9: a valid delete request whose chat is absent. -/
def c9env : DeleteEnv := ⟨some "chat-1", some ⟨"user-1", "regular"⟩, none⟩

/-- Fixture for C10: a public chat resumed by a non-owner. -/
def c10env : GetEnv :=
  ⟨true, some "chat-3", some ⟨"user-other", "regular"⟩,
   .ok (some ⟨"chat-3", "user-owner", "public", "T"⟩), ["s1"], true, [], 0⟩

/-- String append acts on the underlying character lists. -/
theorem string_data_append (a b : String) : (a ++ b).data = a.data ++ b.data := rfl

/-- No failure narrative coincides with the generic success narrative: the
two differ at character position 11. -/
theorem toolFailedHead_append_ne (t : String) :
    toolFailedHead ++ t ≠ genericSuccessMsg := by
  intro h
  have hd : toolFailedHead.data ++ t.data = genericSuccessMsg.data := by
    rw [← string_data_append, h]
  have h11 := congrArg (fun l => l[11]?) hd
  simp only at h11
  rw [List.getElem?_append_left (by decide)] at h11
  exact absurd h11 (by decide)

/-- Every top-level error narrative starts with the failed head. -/
theorem topLevelErrorNarrative_shape (e : Option JsonValue) :
    ∃ tail, topLevelErrorNarrative e = toolFailedHead ++ tail := by
  cases e with
  | none => exact ⟨_, rfl⟩
  | some v =>
      have hv : topLevelErrorNarrative (some v) =
          (if jsTruthy v = true ∧ jsTypeofObject v = true ∧ jsHasProp v "message" = true then
            toolFailedHead ++ jsTemplateString ((jsField v "message").getD .null)
          else
            toolFailedHead ++
              stringifyCompact (if jsTruthy v = true then v else .str "Unknown error")) := rfl
      rw [hv]
      by_cases hc : jsTruthy v = true ∧ jsTypeofObject v = true ∧ jsHasProp v "message" = true
      · rw [if_pos hc]; exact ⟨_, rfl⟩
      · rw [if_neg hc]; exact ⟨_, rfl⟩

/-- A reported top-level error overrides the content scan. -/
theorem normalize_isError (r : McpCallToolResult) (h : r.isError = true) :
    normalizeToolResult r = topLevelErrorNarrative r.error := by
  unfold normalizeToolResult
  rw [h]
  simp

/-- Claim C1: the capability loader never raises past its own boundary: on
a connection, listing, or URL failure the try body fails but the loader
returns the empty mapping, and calling it twice on an unreachable address
yields the empty mapping both times. -/
theorem c1_loader_swallows_failures (url m : String) :
    loadToolsViaMcpSdk url .invalidUrl = [] ∧
    loadToolsViaMcpSdk url (.connectError m) = [] ∧
    loadToolsViaMcpSdk url (.listError m) = [] ∧
    (loadToolsAttempt url (.connectError m)).toOption = none ∧
    (loadToolsViaMcpSdk url (.connectError m) = [] ∧
      loadToolsViaMcpSdk url (.connectError m) = []) :=
  ⟨rfl, rfl, rfl, rfl, rfl, rfl⟩

/-- Claim C2 counterexample: a reasoning-only request carrying a provider
URL still performs the dynamic tool load, the loader even yields a
non-empty mapping for this provider, so loading is not skipped; only the
active tool set is empty. -/
theorem c2_counterexample :
    c2req.selectedChatModel = reasoningModelName ∧
    loadToolsViaMcpSdk "http://mcp.example/sse" c2env.mcpOutcome ≠ [] ∧
    Effect.attemptedToolLoad "http://mcp.example/sse" ∈ (POSTHandler c2req c2env).2 ∧
    (POSTHandler c2req c2env).1 = .streamResp [] := by
  refine ⟨rfl, by decide, by decide, rfl⟩

/-- Claim C2 as amended: on every generation request that reaches the
stream path with the reasoning-only model, new chat or existing owned
chat alike, the active tool set is empty regardless of how many dynamic
tools were discovered, and the dynamic tool load is still attempted
whenever a non-empty provider URL is supplied. -/
theorem c2_reasoning_empty_active_tools (req : PostRequest) (env : PostEnv)
    (sess : Session)
    (hs : env.session = some sess)
    (hrate : env.messageCount ≤ env.maxMessagesPerDay)
    (hown : ∀ c, env.existingChat = some c → c.userId = sess.userId)
    (hmodel : req.selectedChatModel = reasoningModelName) :
    (POSTHandler req env).1 = .streamResp [] ∧
    (∀ u, req.mcpServerUrl = some u → u ≠ "" →
        Effect.attemptedToolLoad u ∈ (POSTHandler req env).2) := by
  have hnot : ¬ env.messageCount > env.maxMessagesPerDay := by omega
  rcases hc : env.existingChat with _ | c
  · constructor
    · simp [POSTHandler, hs, hnot, hc, hmodel]
    · intro u hu hu2
      by_cases ha : env.assistantFound = true <;>
        simp [POSTHandler, hs, hnot, hc, hmodel, hu, hu2, ha]
  · have hequ : c.userId = sess.userId := hown c hc
    constructor
    · simp [POSTHandler, hs, hnot, hc, hequ, hmodel]
    · intro u hu hu2
      by_cases ha : env.assistantFound = true <;>
        simp [POSTHandler, hs, hnot, hc, hequ, hmodel, hu, hu2, ha]

/-- Claim C2 witness: the amended statement evaluated at the fixture. -/
theorem c2_witness :
    (POSTHandler c2req c2env).1 = .streamResp [] ∧
    Effect.attemptedToolLoad "http://mcp.example/sse" ∈ (POSTHandler c2req c2env).2 :=
  (fun h => ⟨h.1, h.2 "http://mcp.example/sse" rfl (by decide)⟩)
    (c2_reasoning_empty_active_tools c2req c2env ⟨"user-1", "regular"⟩ rfl (by decide)
      (fun _ hc => Option.noConfusion hc) rfl)

/-- Claim C3: a tool invocation whose remote call reports a top-level
error yields a narrative that is never the generic success string and
carries the error message text, or the compact serialization of the error
value, or the serialized Unknown error fallback; the override applies for
every content value, so the error rule has priority over the content
rules. -/
theorem c3_top_level_error (r : McpCallToolResult) (h : r.isError = true) :
    normalizeToolResult r ≠ genericSuccessMsg ∧
    (∀ v, r.error = some v → jsTruthy v = true → jsTypeofObject v = true →
        jsHasProp v "message" = true →
        normalizeToolResult r =
          toolFailedHead ++ jsTemplateString ((jsField v "message").getD .null)) ∧
    (∀ v, r.error = some v → jsTruthy v = true →
        (jsTypeofObject v = false ∨ jsHasProp v "message" = false) →
        normalizeToolResult r = toolFailedHead ++ stringifyCompact v) ∧
    (∀ v, r.error = some v → jsTruthy v = false →
        normalizeToolResult r = toolFailedHead ++ stringifyCompact (.str "Unknown error")) ∧
    (r.error = none →
        normalizeToolResult r = toolFailedHead ++ stringifyCompact (.str "Unknown error")) := by
  have hn := normalize_isError r h
  refine ⟨?_, ?_, ?_, ?_, ?_⟩
  · obtain ⟨tail, htail⟩ := topLevelErrorNarrative_shape r.error
    rw [hn, htail]
    exact toolFailedHead_append_ne tail
  · intro v hv htr hto hmsg
    rw [hn, hv]
    simp [topLevelErrorNarrative, htr, hto, hmsg]
  · intro v hv htr hf
    rw [hn, hv]
    rcases hf with hf | hf <;> simp [topLevelErrorNarrative, htr, hf]
  · intro v hv htr
    rw [hn, hv]
    simp [topLevelErrorNarrative, htr]
  · intro hv
    rw [hn, hv]
    rfl

/-- Claim C3 witness: the theorem evaluated at a result carrying both
content and a top-level error object with a message. -/
theorem c3_witness :
    c3fixture.isError = true ∧
    normalizeToolResult c3fixture ≠ genericSuccessMsg ∧
    normalizeToolResult c3fixture = toolFailedHead ++ "boom" := by
  refine ⟨rfl, (c3_top_level_error c3fixture rfl).1, ?_⟩
  exact (c3_top_level_error c3fixture rfl).2.1 (.obj [("message", .str "boom")]) rfl rfl rfl rfl

/-- Claim C4: resuming a chat whose live stream has closed synthesizes
exactly one append-message event carrying the most recent message when
that message is assistant-role and at most 15 seconds old, and yields the
empty stream when it is older than 15 seconds or not assistant-role. -/
theorem c4_resume_freshness (env : GetEnv) (cid sid : String) (sess : Session)
    (chat : Chat) (m : DbMessage)
    (hctx : env.streamContextAvailable = true)
    (hcid : env.chatIdParam = some cid) (hcid2 : cid ≠ "")
    (hsess : env.session = some sess)
    (hchat : env.chatLookup = .ok (some chat))
    (hvis : ¬(chat.visibility = "private" ∧ chat.userId ≠ sess.userId))
    (hsid : env.streamIds.getLast? = some sid) (hsid2 : sid ≠ "")
    (hlive : env.liveStreamActive = false)
    (hmsg : env.messages.getLast? = some m) :
    (m.role = "assistant" → env.resumeRequestedAt - m.createdAt ≤ 15 →
        GETHandler env = .restoredStream [.appendMessage m]) ∧
    (env.resumeRequestedAt - m.createdAt > 15 → GETHandler env = .emptyStream) ∧
    (m.role ≠ "assistant" → GETHandler env = .emptyStream) := by
  have hne : env.streamIds ≠ [] := by
    intro h0
    rw [h0] at hsid
    simp at hsid
  have hlen : ¬ env.streamIds.length = 0 := by
    simpa [List.length_eq_zero] using hne
  refine ⟨?_, ?_, ?_⟩
  · intro hrole hfresh
    simp [GETHandler, hctx, hcid, hcid2, hsess, hchat, hvis, hlen, hsid, hsid2, hlive,
      hmsg, hrole, show ¬ env.resumeRequestedAt - m.createdAt > 15 by omega]
  · intro hfresh
    by_cases hrole : m.role = "assistant" <;>
      simp [GETHandler, hctx, hcid, hcid2, hsess, hchat, hvis, hlen, hsid, hsid2, hlive,
        hmsg, hrole, hfresh]
  · intro hrole
    simp [GETHandler, hctx, hcid, hcid2, hsess, hchat, hvis, hlen, hsid, hsid2, hlive,
      hmsg, hrole]

/-- Claim C4 witness: the theorem evaluated at a resume 5 seconds after
the assistant message was created. -/
theorem c4_witness :
    GETHandler c4env = .restoredStream [.appendMessage c4msg] :=
  (c4_resume_freshness c4env "chat-9" "s1" ⟨"user-9", "regular"⟩
      ⟨"chat-9", "user-9", "private", "T"⟩ c4msg rfl rfl (by decide) rfl rfl
      (by simp) rfl (by decide) rfl rfl).1 rfl (by decide)

/-- Claim C5: an array property whose items declare a non-empty string
enum translates to a sequence of exactly that closed enumerated set, and
otherwise the element kind follows the item type, defaulting to any when
unspecified. -/
theorem c5_array_enum_translation (p it : McpJsonSchemaProperty) (vs : List String) :
    (p.type = .single "array" → p.items = some it →
        ((it.type = .single "string" → it.enum = some vs → vs ≠ [] →
            translatePropType p = .zArray (.zEnum vs)) ∧
         (it.type = .single "string" → it.enum = none →
            translatePropType p = .zArray .zString) ∧
         (it.type = .single "string" → it.enum = some [] →
            translatePropType p = .zArray .zString) ∧
         (it.type = .single "number" → translatePropType p = .zArray .zNumber) ∧
         (it.type = .single "integer" → translatePropType p = .zArray .zNumber) ∧
         (it.type = .single "boolean" → translatePropType p = .zArray .zBoolean) ∧
         (it.type = .missing → translatePropType p = .zArray .zAny))) ∧
    (p.type = .single "array" → p.items = none → translatePropType p = .zArray .zAny) := by
  constructor
  · intro hp hitems
    refine ⟨?_, ?_, ?_, ?_, ?_, ?_, ?_⟩
    · intro hty henum hvs
      have he : enumNonempty it = true := by
        simp [enumNonempty, henum]
        cases vs with
        | nil => exact absurd rfl hvs
        | cons a l => simp
      simp [translatePropType, hp, translateArrayItemType, hitems, hty, he, henum]
    · intro hty henum
      simp [translatePropType, hp, translateArrayItemType, hitems, hty, enumNonempty, henum]
    · intro hty henum
      simp [translatePropType, hp, translateArrayItemType, hitems, hty, enumNonempty, henum]
    · intro hty
      simp [translatePropType, hp, translateArrayItemType, hitems, hty]
    · intro hty
      simp [translatePropType, hp, translateArrayItemType, hitems, hty]
    · intro hty
      simp [translatePropType, hp, translateArrayItemType, hitems, hty]
    · intro hty
      simp [translatePropType, hp, translateArrayItemType, hitems, hty]
  · intro hp hitems
    simp [translatePropType, hp, translateArrayItemType, hitems]

/-- Claim C5 witness: the theorem evaluated at an array property whose
items declare the enum a, b. -/
theorem c5_witness :
    c5prop.type = .single "array" ∧ c5prop.items = some c5items ∧
    c5items.type = .single "string" ∧ c5items.enum = some ["a", "b"] ∧
    translatePropType c5prop = .zArray (.zEnum ["a", "b"]) := by
  refine ⟨rfl, rfl, rfl, rfl, ?_⟩
  exact ((c5_array_enum_translation c5prop c5items ["a", "b"]).1 rfl rfl).1 rfl rfl (by decide)

/-- Claim C6: the dynamic tool invocation adapter never throws to its
caller: a connection or call failure becomes an error-object return whose
text narrates the failure, exactly one error event is written onto the
output channel, and the finally clause closes the client on every outcome
past client construction, success and remote error included. -/
theorem c6_adapter_failure_containment (opId m : String) (r : McpCallToolResult) :
    executeDynamicTool opId (.connectError m) =
      (.errorObj ("Error executing tool " ++ opId ++ ": " ++ m),
       [.errorEvent ("Tool " ++ opId ++ " execution error: " ++ m)], true) ∧
    executeDynamicTool opId (.callError m) =
      (.errorObj ("Error executing tool " ++ opId ++ ": " ++ m),
       [.errorEvent ("Tool " ++ opId ++ " execution error: " ++ m)], true) ∧
    (executeDynamicTool opId (.ok r)).2.2 = true ∧
    (executeDynamicTool opId (.ok r)).2.1 = [.toolResult opId (normalizeToolResult r)] :=
  ⟨rfl, rfl, rfl, rfl⟩

/-- Claim C7 counterexample: a result whose first content item is
non-text while its second, the first textual item, carries the marker
with a small parseable non-error payload; the narrative is the generic
non-text message and contains neither the pretty nor the compact
serialization of the payload. -/
theorem c7_counterexample :
    c7result.isError = false ∧
    c7firstItem.type ≠ "text" ∧
    c7secondItem.type = "text" ∧
    findSubIdx c7secondText.data jsonMarker.data 0 = some 13 ∧
    parseJson (substringFrom (13 + jsonMarkerHead.length) c7secondText) = some c7payload ∧
    jsFieldTruthy c7payload "error" = false ∧
    (stringifyPretty 0 c7payload).length ≤ maxJsonLengthForPrompt ∧
    normalizeToolResult c7result = nonTextContentMsg ∧
    strContainsSub (normalizeToolResult c7result) (stringifyPretty 0 c7payload) = false ∧
    strContainsSub (normalizeToolResult c7result) (stringifyCompact c7payload) = false :=
  ⟨rfl, by decide, rfl, rfl, rfl, rfl, by decide, rfl, by decide, by decide⟩

/-- Claim C7 as amended: for a result with no top-level error whose first
content item is textual, carries the embedded-JSON marker, and parses to
a non-error payload, the narrative summarizes by top-level key names when
the 2-space-indented serialization exceeds 3000 characters and otherwise
includes that serialization. -/
theorem c7_amended_embedded_json (r : McpCallToolResult)
    (item : McpToolResultContentItem) (rest : List McpToolResultContentItem)
    (t : String) (idx : Nat) (j : JsonValue)
    (hc : r.content = some (item :: rest))
    (he : r.isError = false)
    (ht : item.type = "text") (htx : item.text = some t) (hne : t ≠ "")
    (hidx : findSubIdx t.data jsonMarker.data 0 = some idx)
    (hparse : parseJson (substringFrom (idx + jsonMarkerHead.length) t) = some j)
    (herr : jsFieldTruthy j "error" = false) :
    ((stringifyPretty 0 j).length > maxJsonLengthForPrompt →
        normalizeToolResult r =
          largeJsonNarrativeHead ++ String.intercalate ", " (jsObjectKeys j) ++
            largeJsonNarrativeTail) ∧
    ((stringifyPretty 0 j).length ≤ maxJsonLengthForPrompt →
        normalizeToolResult r = smallJsonNarrativeHead ++ stringifyPretty 0 j) := by
  have hitem : itemTextTruthy item = true := by
    simp [itemTextTruthy, htx, hne]
  have hproc : processContentItems (item :: rest) genericSuccessMsg false =
      (jsonNarrativeFor j, true) := by
    simp [processContentItems, ht, hitem, htx, hidx, hparse]
  have hnorm : normalizeToolResult r = jsonNarrativeFor j := by
    simp [normalizeToolResult, hc, he, hproc]
  constructor
  · intro hbig
    rw [hnorm]
    simp [jsonNarrativeFor, herr, hbig]
  · intro hsmall
    rw [hnorm]
    simp [jsonNarrativeFor, herr,
      show ¬ (stringifyPretty 0 j).length > maxJsonLengthForPrompt by omega]

/-- Claim C7 witness: the amended statement evaluated at a result whose
single content item is textual and carries a small payload. -/
theorem c7_witness :
    normalizeToolResult c7witnessResult =
      smallJsonNarrativeHead ++ stringifyPretty 0 c7payload :=
  (c7_amended_embedded_json c7witnessResult c7witnessItem [] c7secondText 13 c7payload
      rfl rfl rfl rfl (by decide) rfl rfl rfl).2 (by decide)

/-- Claim C8: on every successful generation request, new chat or
existing owned chat alike, the user message is persisted before any model
event is emitted and the assistant reply is persisted strictly after the
user message; when the chat is new, the chat session is also persisted
before any model event. -/
theorem c8_persist_ordering (req : PostRequest) (env : PostEnv) (sess : Session)
    (hs : env.session = some sess)
    (hrate : env.messageCount ≤ env.maxMessagesPerDay)
    (hown : ∀ c, env.existingChat = some c → c.userId = sess.userId)
    (hasst : env.assistantFound = true) :
    (env.existingChat = none →
        occursBefore
          (.savedChat req.id sess.userId env.generatedTitle req.selectedVisibilityType)
          .emittedModelEvent (POSTHandler req env).2) ∧
    occursBefore (.savedUserMessage req.id req.messageId)
      .emittedModelEvent (POSTHandler req env).2 ∧
    occursBefore (.savedUserMessage req.id req.messageId)
      (.savedAssistantMessage req.id) (POSTHandler req env).2 := by
  have hnot : ¬ env.messageCount > env.maxMessagesPerDay := by omega
  rcases hc : env.existingChat with _ | c
  · rcases hu : req.mcpServerUrl with _ | u
    · have htr : (POSTHandler req env).2 =
          [.savedChat req.id sess.userId env.generatedTitle req.selectedVisibilityType,
           .savedUserMessage req.id req.messageId,
           .createdStream req.id, .emittedModelEvent,
           .savedAssistantMessage req.id] := by
        simp [POSTHandler, hs, hnot, hc, hu, hasst]
      rw [htr]
      exact ⟨fun _ => ⟨0, 3, by omega, rfl, rfl⟩, ⟨1, 3, by omega, rfl, rfl⟩,
        ⟨1, 4, by omega, rfl, rfl⟩⟩
    · by_cases hu2 : u = ""
      · have htr : (POSTHandler req env).2 =
            [.savedChat req.id sess.userId env.generatedTitle req.selectedVisibilityType,
             .savedUserMessage req.id req.messageId,
             .createdStream req.id, .emittedModelEvent,
             .savedAssistantMessage req.id] := by
          simp [POSTHandler, hs, hnot, hc, hu, hu2, hasst]
        rw [htr]
        exact ⟨fun _ => ⟨0, 3, by omega, rfl, rfl⟩, ⟨1, 3, by omega, rfl, rfl⟩,
          ⟨1, 4, by omega, rfl, rfl⟩⟩
      · have htr : (POSTHandler req env).2 =
            [.savedChat req.id sess.userId env.generatedTitle req.selectedVisibilityType,
             .savedUserMessage req.id req.messageId,
             .attemptedToolLoad u,
             .createdStream req.id, .emittedModelEvent,
             .savedAssistantMessage req.id] := by
          simp [POSTHandler, hs, hnot, hc, hu, hu2, hasst]
        rw [htr]
        exact ⟨fun _ => ⟨0, 4, by omega, rfl, rfl⟩, ⟨1, 4, by omega, rfl, rfl⟩,
          ⟨1, 5, by omega, rfl, rfl⟩⟩
  · have hequ : c.userId = sess.userId := hown c hc
    rcases hu : req.mcpServerUrl with _ | u
    · have htr : (POSTHandler req env).2 =
          [.savedUserMessage req.id req.messageId,
           .createdStream req.id, .emittedModelEvent,
           .savedAssistantMessage req.id] := by
        simp [POSTHandler, hs, hnot, hc, hequ, hu, hasst]
      rw [htr]
      exact ⟨fun h0 => Option.noConfusion h0, ⟨0, 2, by omega, rfl, rfl⟩,
        ⟨0, 3, by omega, rfl, rfl⟩⟩
    · by_cases hu2 : u = ""
      · have htr : (POSTHandler req env).2 =
            [.savedUserMessage req.id req.messageId,
             .createdStream req.id, .emittedModelEvent,
             .savedAssistantMessage req.id] := by
          simp [POSTHandler, hs, hnot, hc, hequ, hu, hu2, hasst]
        rw [htr]
        exact ⟨fun h0 => Option.noConfusion h0, ⟨0, 2, by omega, rfl, rfl⟩,
          ⟨0, 3, by omega, rfl, rfl⟩⟩
      · have htr : (POSTHandler req env).2 =
            [.savedUserMessage req.id req.messageId,
             .attemptedToolLoad u,
             .createdStream req.id, .emittedModelEvent,
             .savedAssistantMessage req.id] := by
          simp [POSTHandler, hs, hnot, hc, hequ, hu, hu2, hasst]
        rw [htr]
        exact ⟨fun h0 => Option.noConfusion h0, ⟨0, 3, by omega, rfl, rfl⟩,
          ⟨0, 4, by omega, rfl, rfl⟩⟩

/-- Claim C8 witness: the theorem evaluated at a fresh chat request with
no provider URL. -/
theorem c8_witness :
    occursBefore (.savedChat "chat-2" "user-2" "Sum" "private")
      .emittedModelEvent (POSTHandler c8req c8env).2 ∧
    occursBefore (.savedUserMessage "chat-2" "msg-2")
      .emittedModelEvent (POSTHandler c8req c8env).2 ∧
    occursBefore (.savedUserMessage "chat-2" "msg-2")
      (.savedAssistantMessage "chat-2") (POSTHandler c8req c8env).2 :=
  (fun h => ⟨h.1 rfl, h.2.1, h.2.2⟩)
    (c8_persist_ordering c8req c8env ⟨"user-2", "regular"⟩ rfl (by decide)
      (fun _ hc => Option.noConfusion hc) rfl)

/-- Claim C9: the DELETE handler dereferences the looked-up chat without a
null check, so a delete request for an absent chat throws instead of
returning the not-found error the specification prescribes. -/
theorem c9_delete_missing_chat_crash :
    DELETEHandler c9env = .error "TypeError: cannot read userId of an undefined chat" ∧
    ∀ resp : DeleteResponse, DELETEHandler c9env ≠ .ok resp := by
  refine ⟨rfl, ?_⟩
  intro resp h
  rw [show DELETEHandler c9env =
    .error "TypeError: cannot read userId of an undefined chat" from rfl] at h
  exact Except.noConfusion h

/-- Claim C10: on the resume endpoint, once the chat is found the
forbidden error is returned exactly when the chat is private and the
requesting user is not the owner; a public chat is never forbidden. -/
theorem c10_public_resume_forbidden_iff (env : GetEnv) (cid : String)
    (sess : Session) (chat : Chat)
    (hctx : env.streamContextAvailable = true)
    (hcid : env.chatIdParam = some cid) (hcid2 : cid ≠ "")
    (hsess : env.session = some sess)
    (hchat : env.chatLookup = .ok (some chat)) :
    GETHandler env = .errorResp "forbidden:chat" ↔
      (chat.visibility = "private" ∧ chat.userId ≠ sess.userId) := by
  by_cases hv : chat.visibility = "private" ∧ chat.userId ≠ sess.userId
  · simp [GETHandler, hctx, hcid, hcid2, hsess, hchat, hv]
  · simp only [GETHandler, hctx, hcid, hcid2, hsess, hchat, hv, iff_false,
      Bool.true_eq_false, if_false, if_neg hcid2, if_neg hv]
    split
    · simp
    · split
      · simp
      · split
        · simp
        · split
          · simp
          · split
            · simp
            · split
              · simp
              · split <;> simp

/-- Claim C10 witness: a public chat owned by another user resumes
without a forbidden error. -/
theorem c10_witness :
    ¬ (GETHandler c10env = .errorResp "forbidden:chat") := by
  have h := c10_public_resume_forbidden_iff c10env "chat-3" ⟨"user-other", "regular"⟩
    ⟨"chat-3", "user-owner", "public", "T"⟩ rfl rfl (by decide) rfl rfl
  intro hEq
  exact absurd (h.mp hEq).1 (by decide)

end Vortex
